import Mathlib

/-!
Shallow embedding of the `pgx_range_operator` range engine (integer instance).

The data model mirrors `pgtype.Range[T]` specialized to the integer
comparator built by `NewInteger()`: `cmp = cmp.Compare[int]`,
`diff a b = a - b`, `addOne a = a + 1`, `zero = 0`.  Go's `(value, error)`
pairs are modelled as `Except RangeError value`; call sites in the source
that discard the error (`v, _ := ...`) are modelled by the `...Val`
helpers, which return the value component the Go code would have
returned alongside the error.
-/

namespace PgxRange

/-- `pgtype.BoundType`: Inclusive, Exclusive, Unbounded, Empty. -/
inductive BoundType where
  | inclusive
  | exclusive
  | unbounded
  | empty
deriving DecidableEq, Repr

/-- `pgtype.Range[int]` together with its validity flag. -/
structure PgRange where
  lower : Int
  lowerType : BoundType
  upper : Int
  upperType : BoundType
  valid : Bool
deriving DecidableEq, Repr

/-- The distinct error messages produced by the source, one constructor per
`fmt.Errorf` call site. -/
inductive RangeError where
  | invalidRange
  | invalidFirst
  | invalidSecond
  | unboundedRange
  | nonContiguousUnion
  | nonContiguousDifference
  | unexpectedDifference
  | lowerInfinite
  | lowerEmpty
  | upperInfinite
  | upperEmpty
deriving DecidableEq, Repr

/-- `cmp.Compare[int]`: -1, 0 or 1. -/
def cmpInt (a b : Int) : Int :=
  if a < b then -1 else if b < a then 1 else 0

/-- `makeEmptyRange[T]()`: zero value fields with Empty bound types and
`Valid: true`. -/
def makeEmptyRange : PgRange :=
  { lower := 0, lowerType := .empty, upper := 0, upperType := .empty, valid := true }

/-- The exclusive-lower shift shared by `Size` and `Rewrite`:
`if r.LowerType == Exclusive { r.Lower = addOne(r.Lower); r.LowerType = Inclusive }`. -/
def shiftLower (r : PgRange) : PgRange :=
  if r.lowerType = .exclusive then
    { r with lower := r.lower + 1, lowerType := .inclusive } else r

/-- The inclusive-upper shift shared by `Size` and `Rewrite`:
`if r.UpperType == Inclusive { r.Upper = addOne(r.Upper); r.UpperType = Exclusive }`. -/
def shiftUpper (r : PgRange) : PgRange :=
  if r.upperType = .inclusive then
    { r with upper := r.upper + 1, upperType := .exclusive } else r

/-- `operator.Size` (integer instance). -/
def Size (r : PgRange) : Except RangeError Int :=
  if r.valid = false then .error .invalidRange
  else if r.lowerType = .unbounded ∨ r.upperType = .unbounded then .error .unboundedRange
  else
    let r := shiftUpper (shiftLower r)
    .ok (r.upper - r.lower)

/-- The value component of `Size` as the Go caller `s, _ := ro.Size(r)` sees
it: the error paths return `ro.diff(ro.zero, ro.zero) = 0`. -/
def sizeVal (r : PgRange) : Int :=
  match Size r with
  | .ok s => s
  | .error _ => 0

/-- `operator.Empty`. -/
def Empty (r : PgRange) : Except RangeError Bool :=
  if r.valid = false then .error .invalidRange
  else if r.lowerType = .unbounded ∨ r.upperType = .unbounded then .ok false
  else .ok (r.lowerType = .empty ∨ r.upperType = .empty ∨ sizeVal r ≤ 0)

/-- The value component of `Empty` as callers discarding the error see it
(`false` on the invalid-range error path). -/
def emptyVal (r : PgRange) : Bool :=
  match Empty r with
  | .ok b => b
  | .error _ => false

/-- `operator.Rewrite`: convert all bounded ranges to the form `[ , )`,
collapsing empty-denoting ranges to the canonical empty range. -/
def Rewrite (r : PgRange) : PgRange :=
  let r := shiftUpper (shiftLower r)
  if emptyVal r then makeEmptyRange else r

/-- `operator.compareBounds`: total-order comparison of one edge of `first`
against one edge of `second`; the booleans select the lower (`true`) or
upper (`false`) edge.  Mirrors the source's relocation of the requested
edge into the lower slot. -/
def compareBounds (first second : PgRange) (firstLower secondLower : Bool) : Int :=
  let first := if firstLower then first else
    { first with lower := first.upper, lowerType := first.upperType }
  let second := if secondLower then second else
    { second with lower := second.upper, lowerType := second.upperType }
  if first.lowerType = .unbounded ∧ second.lowerType = .unbounded then
    if firstLower = secondLower then 0
    else if firstLower then -1
    else 1
  else if first.lowerType = .unbounded then
    if firstLower then -1 else 1
  else if second.lowerType = .unbounded then
    if secondLower then 1 else -1
  else
    let result := cmpInt first.lower second.lower
    if result = 0 then
      if first.lowerType ≠ .inclusive ∧ second.lowerType ≠ .inclusive then
        if firstLower = secondLower then 0
        else if firstLower then 1
        else -1
      else if first.lowerType ≠ .inclusive then
        if firstLower then 1 else -1
      else if second.lowerType ≠ .inclusive then
        if secondLower then -1 else 1
      else 0
    else result

/-- `operator.Equal`. -/
def Equal (first second : PgRange) : Except RangeError Bool :=
  if first.valid = false then .error .invalidFirst
  else if second.valid = false then .error .invalidSecond
  else
    let firstEmpty := emptyVal first
    let secondEmpty := emptyVal second
    if firstEmpty ∧ secondEmpty then .ok true
    else if firstEmpty ≠ secondEmpty then .ok false
    else
      let first := Rewrite first
      let second := Rewrite second
      if compareBounds first second true true ≠ 0 then .ok false
      else if compareBounds first second false false ≠ 0 then .ok false
      else .ok true

/-- `operator.compareRanges`. -/
def compareRanges (first second : PgRange) : Int :=
  let first := Rewrite first
  let second := Rewrite second
  let firstEmpty := emptyVal first
  let secondEmpty := emptyVal second
  if firstEmpty ∧ secondEmpty then 0
  else if firstEmpty then -1
  else if secondEmpty then 1
  else
    let result := compareBounds first second true true
    if result = 0 then compareBounds first second false false else result

/-- `operator.LessThan`. -/
def LessThan (first second : PgRange) : Except RangeError Bool :=
  if first.valid = false then .error .invalidFirst
  else if second.valid = false then .error .invalidSecond
  else .ok (compareRanges first second < 0)

/-- `operator.GreaterThan`. -/
def GreaterThan (first second : PgRange) : Except RangeError Bool :=
  if first.valid = false then .error .invalidFirst
  else if second.valid = false then .error .invalidSecond
  else .ok (compareRanges first second > 0)

/-- `operator.Overlap`. -/
def Overlap (first second : PgRange) : Except RangeError Bool :=
  if first.valid = false then .error .invalidFirst
  else if second.valid = false then .error .invalidSecond
  else if emptyVal first ∨ emptyVal second then .ok false
  else
    let first := Rewrite first
    let second := Rewrite second
    if compareBounds first second true true ≥ 0 ∧
        compareBounds first second true false ≤ 0 then .ok true
    else if compareBounds second first true true ≥ 0 ∧
        compareBounds second first true false ≤ 0 then .ok true
    else .ok false

/-- The value component of `Overlap` as union's `overlap, _ := ...` sees it. -/
def overlapVal (first second : PgRange) : Bool :=
  match Overlap first second with
  | .ok b => b
  | .error _ => false

/-- `operator.Adjacent`. -/
def Adjacent (first second : PgRange) : Except RangeError Bool :=
  if first.valid = false then .error .invalidFirst
  else if second.valid = false then .error .invalidSecond
  else if emptyVal first ∨ emptyVal second then .ok false
  else
    let first := Rewrite first
    let second := Rewrite second
    if ((first.upperType = .inclusive ∧ second.lowerType = .exclusive) ∨
        (first.upperType = .exclusive ∧ second.lowerType = .inclusive)) ∧
        cmpInt first.upper second.lower = 0 then .ok true
    else if ((first.lowerType = .inclusive ∧ second.upperType = .exclusive) ∨
        (first.lowerType = .exclusive ∧ second.upperType = .inclusive)) ∧
        cmpInt first.lower second.upper = 0 then .ok true
    else .ok false

/-- The value component of `Adjacent` as union's `adjacent, _ := ...` sees it. -/
def adjacentVal (first second : PgRange) : Bool :=
  match Adjacent first second with
  | .ok b => b
  | .error _ => false

/-- `operator.union`, shared by `Union` (strict) and `Merge` (non-strict). -/
def unionImpl (first second : PgRange) (strict : Bool) : Except RangeError PgRange :=
  if first.valid = false then .error .invalidFirst
  else if second.valid = false then .error .invalidSecond
  else
    let first := Rewrite first
    let second := Rewrite second
    let firstEmpty := emptyVal first
    let secondEmpty := emptyVal second
    if firstEmpty ∧ secondEmpty then .ok makeEmptyRange
    else if firstEmpty then .ok second
    else if secondEmpty then .ok first
    else
      let overlap := overlapVal first second
      let adjacent := adjacentVal first second
      if overlap = false ∧ adjacent = false ∧ strict = true then
        .error .nonContiguousUnion
      else
        let result : PgRange :=
          { lower := if compareBounds first second true true < 0 then first.lower
              else second.lower
            lowerType := if compareBounds first second true true < 0 then first.lowerType
              else second.lowerType
            upper := if compareBounds first second false false > 0 then first.upper
              else second.upper
            upperType := if compareBounds first second false false > 0 then first.upperType
              else second.upperType
            valid := true }
        .ok (Rewrite result)

/-- `operator.Union`. -/
def Union (first second : PgRange) : Except RangeError PgRange :=
  unionImpl first second true

/-- `operator.Merge`. -/
def Merge (first second : PgRange) : Except RangeError PgRange :=
  unionImpl first second false

/-- `operator.Intersect`. -/
def Intersect (first second : PgRange) : Except RangeError PgRange :=
  if first.valid = false then .error .invalidFirst
  else if second.valid = false then .error .invalidSecond
  else
    let first := Rewrite first
    let second := Rewrite second
    if emptyVal first ∨ emptyVal second ∨ overlapVal first second = false then
      .ok makeEmptyRange
    else
      let result : PgRange :=
        { lower := if compareBounds first second true true ≥ 0 then first.lower
            else second.lower
          lowerType := if compareBounds first second true true ≥ 0 then first.lowerType
            else second.lowerType
          upper := if compareBounds first second false false ≤ 0 then first.upper
            else second.upper
          upperType := if compareBounds first second false false ≤ 0 then first.upperType
            else second.upperType
          valid := true }
      .ok (Rewrite result)

/-- `operator.Difference`. -/
def Difference (first second : PgRange) : Except RangeError PgRange :=
  if first.valid = false then .error .invalidFirst
  else if second.valid = false then .error .invalidSecond
  else
    let firstEmpty := emptyVal first
    let secondEmpty := emptyVal second
    if firstEmpty then .ok makeEmptyRange
    else if secondEmpty then .ok (Rewrite first)
    else
      let first := Rewrite first
      let second := Rewrite second
      let l1l2 := compareBounds first second true true
      let l1u2 := compareBounds first second true false
      let u1l2 := compareBounds first second false true
      let u1u2 := compareBounds first second false false
      if l1l2 < 0 ∧ u1u2 > 0 then .error .nonContiguousDifference
      else if l1u2 > 0 ∨ u1l2 < 0 then .ok (Rewrite first)
      else if l1l2 ≥ 0 ∧ u1u2 ≤ 0 then .ok makeEmptyRange
      else if l1l2 ≤ 0 ∧ u1l2 ≥ 0 ∧ u1u2 ≤ 0 then
        .ok { lower := first.lower
              lowerType := first.lowerType
              upper := second.lower
              upperType := if second.lowerType = .exclusive then .inclusive else .exclusive
              valid := true }
      else if l1l2 ≥ 0 ∧ u1u2 ≥ 0 ∧ l1u2 ≤ 0 then
        .ok { lower := second.upper
              lowerType := if second.upperType = .exclusive then .inclusive else .exclusive
              upper := first.upper
              upperType := first.upperType
              valid := true }
      else .error .unexpectedDifference

/-- `operator.LowerInf`: tests the lower bound type. -/
def LowerInf (r : PgRange) : Bool :=
  r.lowerType = .unbounded

/-- `operator.UpperInf` exactly as written in the source: it tests
`r.LowerType`, not `r.UpperType`. -/
def UpperInf (r : PgRange) : Bool :=
  r.lowerType = .unbounded

/-- `Range.Lower` accessor from `range.go` (integer instance, zero = 0). -/
def Lower (r : PgRange) : Except RangeError Int :=
  if LowerInf r then .error .lowerInfinite
  else if r.lowerType = .empty then .error .lowerEmpty
  else .ok r.lower

/-- `Range.Upper` accessor from `range.go` (integer instance, zero = 0). -/
def Upper (r : PgRange) : Except RangeError Int :=
  if UpperInf r then .error .upperInfinite
  else if r.upperType = .empty then .error .upperEmpty
  else .ok r.upper

/-- `WithLowerInf` range option (integer instance, `ro.zero = 0`): sets the
lower value to zero and the lower bound type to Unbounded. -/
def WithLowerInf (r : PgRange) : PgRange :=
  { r with lower := 0, lowerType := .unbounded }

/-- `WithUpperInf` range option exactly as written in the source: it also
assigns the LOWER bound fields. -/
def WithUpperInf (r : PgRange) : PgRange :=
  { r with lower := 0, lowerType := .unbounded }

/-- `NewIntegerRange`: `[lower, upper)` with `Valid: true`, then the options
applied in order. -/
def NewIntegerRange (lower upper : Int) (opts : List (PgRange → PgRange)) : PgRange :=
  opts.foldl (fun r opt => opt r)
    { lower := lower, lowerType := .inclusive
      upper := upper, upperType := .exclusive, valid := true }

/-!  Wrapping model of the comparator arithmetic.  Go's `int` is a 64-bit
two's-complement integer, so the integer comparator's `diff a b = a - b` and
`addOne a = a + 1` wrap at the int64 boundaries.  The definitions above use
unbounded integers, which is adequate wherever the arithmetic is not
load-bearing; the `...W` definitions below re-embed the same source
functions with the wrap modelled explicitly, for the one property where it
matters.  The comparison-only functions (`cmpInt`, `compareBounds`,
`makeEmptyRange`) perform no arithmetic and are shared between the two
models. -/

/-- Two's-complement wrap into the signed 64-bit range `[-2^63, 2^63)`,
modelling Go `int` arithmetic results. -/
def wrap64 (x : Int) : Int :=
  (x + 2 ^ 63) % 2 ^ 64 - 2 ^ 63

/-- The integer comparator's `addOne` (`a + 1`) as executed on Go's
wrapping `int`. -/
def addOne64 (a : Int) : Int :=
  wrap64 (a + 1)

/-- The integer comparator's `diff` (`a - b`) as executed on Go's wrapping
`int`. -/
def diff64 (a b : Int) : Int :=
  wrap64 (a - b)

/-- The exclusive-lower shift with wrapping `addOne`. -/
def shiftLowerW (r : PgRange) : PgRange :=
  if r.lowerType = .exclusive then
    { r with lower := addOne64 r.lower, lowerType := .inclusive } else r

/-- The inclusive-upper shift with wrapping `addOne`. -/
def shiftUpperW (r : PgRange) : PgRange :=
  if r.upperType = .inclusive then
    { r with upper := addOne64 r.upper, upperType := .exclusive } else r

/-- `operator.Size` (integer instance) with wrapping arithmetic. -/
def SizeW (r : PgRange) : Except RangeError Int :=
  if r.valid = false then .error .invalidRange
  else if r.lowerType = .unbounded ∨ r.upperType = .unbounded then .error .unboundedRange
  else
    let r := shiftUpperW (shiftLowerW r)
    .ok (diff64 r.upper r.lower)

/-- Value component of `SizeW` as error-discarding callers see it. -/
def sizeValW (r : PgRange) : Int :=
  match SizeW r with
  | .ok s => s
  | .error _ => 0

/-- `operator.Empty` with wrapping arithmetic. -/
def EmptyW (r : PgRange) : Except RangeError Bool :=
  if r.valid = false then .error .invalidRange
  else if r.lowerType = .unbounded ∨ r.upperType = .unbounded then .ok false
  else .ok (r.lowerType = .empty ∨ r.upperType = .empty ∨ sizeValW r ≤ 0)

/-- Value component of `EmptyW` as error-discarding callers see it. -/
def emptyValW (r : PgRange) : Bool :=
  match EmptyW r with
  | .ok b => b
  | .error _ => false

/-- `operator.Rewrite` with wrapping arithmetic. -/
def RewriteW (r : PgRange) : PgRange :=
  let r := shiftUpperW (shiftLowerW r)
  if emptyValW r then makeEmptyRange else r

/-- `operator.Overlap` with wrapping arithmetic. -/
def OverlapW (first second : PgRange) : Except RangeError Bool :=
  if first.valid = false then .error .invalidFirst
  else if second.valid = false then .error .invalidSecond
  else if emptyValW first ∨ emptyValW second then .ok false
  else
    let first := RewriteW first
    let second := RewriteW second
    if compareBounds first second true true ≥ 0 ∧
        compareBounds first second true false ≤ 0 then .ok true
    else if compareBounds second first true true ≥ 0 ∧
        compareBounds second first true false ≤ 0 then .ok true
    else .ok false

/-!  Helper notions for the proofs: each edge (lower or upper) of a range is
mapped to a lexicographic key so that `compareBounds` becomes key comparison. -/

/-- Key of one edge of a range: unbounded lower edges sit at tier `-1`
(minus infinity), unbounded upper edges at tier `1`; bounded edges at tier
`0` with position `3v` for inclusive edges, `3v + 1` for non-inclusive lower
edges and `3v - 1` for non-inclusive upper edges, mirroring the tie-break
rules of `compareBounds`. -/
def edgeKey (r : PgRange) (isLower : Bool) : Int × Int :=
  let v := if isLower then r.lower else r.upper
  let t := if isLower then r.lowerType else r.upperType
  if t = .unbounded then (if isLower then (-1, 0) else (1, 0))
  else (0, 3 * v + (if t = .inclusive then 0 else if isLower then 1 else -1))

/-- Lexicographic three-way comparison of edge keys. -/
def cmpKey (k1 k2 : Int × Int) : Int :=
  if k1.1 < k2.1 then -1
  else if k2.1 < k1.1 then 1
  else cmpInt k1.2 k2.2

/-- The canonical-form invariant claimed for operator results: either both
bound types are Empty, or the lower bound type is Inclusive or Unbounded and
the upper bound type is Exclusive or Unbounded; and the range is valid. -/
def IsCanonical (r : PgRange) : Prop :=
  ((r.lowerType = .empty ∧ r.upperType = .empty) ∨
    ((r.lowerType = .inclusive ∨ r.lowerType = .unbounded) ∧
     (r.upperType = .exclusive ∨ r.upperType = .unbounded))) ∧
  r.valid = true

instance (r : PgRange) : Decidable (IsCanonical r) := by
  unfold IsCanonical
  infer_instance

theorem cmpKey_le_zero (k1 k2 : Int × Int) :
    cmpKey k1 k2 ≤ 0 ↔ (k1.1 < k2.1 ∨ (k1.1 = k2.1 ∧ k1.2 ≤ k2.2)) := by
  rcases k1 with ⟨t1, p1⟩
  rcases k2 with ⟨t2, p2⟩
  simp only [cmpKey, cmpInt]
  split_ifs <;> omega

theorem cmpKey_lt_zero (k1 k2 : Int × Int) :
    cmpKey k1 k2 < 0 ↔ (k1.1 < k2.1 ∨ (k1.1 = k2.1 ∧ k1.2 < k2.2)) := by
  rcases k1 with ⟨t1, p1⟩
  rcases k2 with ⟨t2, p2⟩
  simp only [cmpKey, cmpInt]
  split_ifs <;> omega

theorem cmpKey_eq_zero (k1 k2 : Int × Int) :
    cmpKey k1 k2 = 0 ↔ (k1.1 = k2.1 ∧ k1.2 = k2.2) := by
  rcases k1 with ⟨t1, p1⟩
  rcases k2 with ⟨t2, p2⟩
  simp only [cmpKey, cmpInt]
  split_ifs <;> simp_all <;> omega

theorem cmpKey_ge_zero (k1 k2 : Int × Int) :
    cmpKey k1 k2 ≥ 0 ↔ (k2.1 < k1.1 ∨ (k1.1 = k2.1 ∧ k2.2 ≤ k1.2)) := by
  rcases k1 with ⟨t1, p1⟩
  rcases k2 with ⟨t2, p2⟩
  simp only [cmpKey, cmpInt]
  split_ifs <;> omega

theorem cmpKey_gt_zero (k1 k2 : Int × Int) :
    cmpKey k1 k2 > 0 ↔ (k2.1 < k1.1 ∨ (k1.1 = k2.1 ∧ k2.2 < k1.2)) := by
  rcases k1 with ⟨t1, p1⟩
  rcases k2 with ⟨t2, p2⟩
  simp only [cmpKey, cmpInt]
  split_ifs <;> omega

/-- `compareBounds` on two lower edges is key comparison. -/
theorem compareBounds_LL (a b : PgRange) :
    compareBounds a b true true = cmpKey (edgeKey a true) (edgeKey b true) := by
  rcases a with ⟨alo, alt, ahi, aut, av⟩
  rcases b with ⟨blo, blt, bhi, but, bv⟩
  cases alt <;> cases blt <;>
    simp [compareBounds, edgeKey, cmpKey, cmpInt] <;> split_ifs <;> simp_all <;> omega

/-- `compareBounds` of a lower edge against an upper edge is key comparison. -/
theorem compareBounds_LU (a b : PgRange) :
    compareBounds a b true false = cmpKey (edgeKey a true) (edgeKey b false) := by
  rcases a with ⟨alo, alt, ahi, aut, av⟩
  rcases b with ⟨blo, blt, bhi, but, bv⟩
  cases alt <;> cases but <;>
    simp [compareBounds, edgeKey, cmpKey, cmpInt] <;> split_ifs <;> simp_all <;> omega

/-- `compareBounds` of an upper edge against a lower edge is key comparison. -/
theorem compareBounds_UL (a b : PgRange) :
    compareBounds a b false true = cmpKey (edgeKey a false) (edgeKey b true) := by
  rcases a with ⟨alo, alt, ahi, aut, av⟩
  rcases b with ⟨blo, blt, bhi, but, bv⟩
  cases aut <;> cases blt <;>
    simp [compareBounds, edgeKey, cmpKey, cmpInt] <;> split_ifs <;> simp_all <;> omega

/-- `compareBounds` on two upper edges is key comparison. -/
theorem compareBounds_UU (a b : PgRange) :
    compareBounds a b false false = cmpKey (edgeKey a false) (edgeKey b false) := by
  rcases a with ⟨alo, alt, ahi, aut, av⟩
  rcases b with ⟨blo, blt, bhi, but, bv⟩
  cases aut <;> cases but <;>
    simp [compareBounds, edgeKey, cmpKey, cmpInt] <;> split_ifs <;> simp_all <;> omega

/-!  Structural lemmas about the canonicalizer. -/

theorem shifts_valid (r : PgRange) : (shiftUpper (shiftLower r)).valid = r.valid := by
  simp only [shiftLower, shiftUpper]
  split_ifs <;> rfl

theorem shiftLower_lowerType (r : PgRange) :
    (shiftLower r).lowerType = if r.lowerType = .exclusive then .inclusive else r.lowerType := by
  simp only [shiftLower]
  split_ifs <;> rfl

theorem shiftUpper_upperType (r : PgRange) :
    (shiftUpper r).upperType = if r.upperType = .inclusive then .exclusive else r.upperType := by
  simp only [shiftUpper]
  split_ifs <;> rfl

theorem emptyVal_false_of_invalid (r : PgRange) (h : r.valid = false) :
    emptyVal r = false := by
  simp [emptyVal, Empty, h]

theorem valid_of_emptyVal_true (r : PgRange) (h : emptyVal r = true) :
    r.valid = true := by
  by_contra hv
  rw [Bool.not_eq_true] at hv
  rw [emptyVal_false_of_invalid r hv] at h
  exact Bool.false_ne_true h

theorem emptyVal_makeEmptyRange : emptyVal makeEmptyRange = true := by
  decide

/-- The two bound shifts do not change emptiness: they preserve validity,
unboundedness, Empty markers and the computed size. -/
theorem emptyVal_shifts (r : PgRange) :
    emptyVal (shiftUpper (shiftLower r)) = emptyVal r := by
  rcases r with ⟨lo, lt, hi, ut, v⟩
  cases v <;> cases lt <;> cases ut <;>
    simp [shiftLower, shiftUpper, emptyVal, Empty, sizeVal, Size]

theorem emptyVal_Rewrite (r : PgRange) : emptyVal (Rewrite r) = emptyVal r := by
  rw [Rewrite]
  by_cases h : emptyVal (shiftUpper (shiftLower r)) = true
  · simp only [h, if_true, emptyVal_makeEmptyRange]
    rw [← emptyVal_shifts r, h]
  · rw [Bool.not_eq_true] at h
    simp only [h, Bool.false_eq_true, if_false]
    exact ((emptyVal_shifts r).symm.trans h).symm

theorem Rewrite_valid (r : PgRange) : (Rewrite r).valid = r.valid := by
  rw [Rewrite]
  by_cases h : emptyVal (shiftUpper (shiftLower r)) = true
  · simp only [h, if_true]
    have hv := valid_of_emptyVal_true _ h
    rw [shifts_valid] at hv
    rw [hv]
    rfl
  · rw [Bool.not_eq_true] at h
    simp only [h, Bool.false_eq_true, if_false, shifts_valid]

theorem Rewrite_lowerType_ne (r : PgRange) : (Rewrite r).lowerType ≠ .exclusive := by
  rw [Rewrite]
  by_cases h : emptyVal (shiftUpper (shiftLower r)) = true
  · simp only [h, if_true]
    decide
  · rw [Bool.not_eq_true] at h
    simp only [h, Bool.false_eq_true, if_false]
    rcases r with ⟨lo, lt, hi, ut, v⟩
    cases lt <;> cases ut <;> simp [shiftLower, shiftUpper]

theorem Rewrite_upperType_ne (r : PgRange) : (Rewrite r).upperType ≠ .inclusive := by
  rw [Rewrite]
  by_cases h : emptyVal (shiftUpper (shiftLower r)) = true
  · simp only [h, if_true]
    decide
  · rw [Bool.not_eq_true] at h
    simp only [h, Bool.false_eq_true, if_false]
    rcases r with ⟨lo, lt, hi, ut, v⟩
    cases lt <;> cases ut <;> simp [shiftLower, shiftUpper]

theorem shifts_fix (r : PgRange) (h1 : r.lowerType ≠ .exclusive)
    (h2 : r.upperType ≠ .inclusive) : shiftUpper (shiftLower r) = r := by
  rw [shiftLower, if_neg h1, shiftUpper, if_neg h2]

/-- `Rewrite` is idempotent. -/
theorem Rewrite_idem (r : PgRange) : Rewrite (Rewrite r) = Rewrite r := by
  conv_lhs => rw [Rewrite]
  rw [shifts_fix (Rewrite r) (Rewrite_lowerType_ne r) (Rewrite_upperType_ne r)]
  rw [emptyVal_Rewrite]
  by_cases h : emptyVal r = true
  · have : Rewrite r = makeEmptyRange := by
      rw [Rewrite, if_pos]
      rw [emptyVal_shifts r]
      exact h
    rw [h, if_pos rfl, this]
  · rw [Bool.not_eq_true] at h
    simp only [h, Bool.false_eq_true, if_false]

/-- `Equal` agrees with the ordering function: it returns `ok true` exactly
when `compareRanges` returns 0. -/
theorem Equal_ok_true_iff (a b : PgRange) (ha : a.valid = true) (hb : b.valid = true) :
    Equal a b = .ok true ↔ compareRanges a b = 0 := by
  simp only [Equal, compareRanges, emptyVal_Rewrite]
  rw [if_neg (by simp [ha]), if_neg (by simp [hb])]
  cases hea : emptyVal a <;> cases heb : emptyVal b <;> simp [hea, heb]
  generalize compareBounds (Rewrite a) (Rewrite b) true true = x
  generalize compareBounds (Rewrite a) (Rewrite b) false false = y
  split_ifs <;> simp_all

theorem LessThan_ok_true_iff (a b : PgRange) (ha : a.valid = true) (hb : b.valid = true) :
    LessThan a b = .ok true ↔ compareRanges a b < 0 := by
  simp only [LessThan]
  rw [if_neg (by simp [ha]), if_neg (by simp [hb])]
  simp

theorem GreaterThan_ok_true_iff (a b : PgRange) (ha : a.valid = true) (hb : b.valid = true) :
    GreaterThan a b = .ok true ↔ 0 < compareRanges a b := by
  simp only [GreaterThan]
  rw [if_neg (by simp [ha]), if_neg (by simp [hb])]
  simp

theorem ite_ok_true (C1 C2 : Prop) [Decidable C1] [Decidable C2] :
    ((if C1 then (Except.ok true : Except RangeError Bool)
      else if C2 then .ok true else .ok false) = .ok true) ↔ (C1 ∨ C2) := by
  split_ifs <;> simp_all

/-- `OverlapW` on valid non-empty operands whose canonicalized lower edges
are at or before their own upper edges holds exactly when each range's lower
edge is at or before the other's upper edge. -/
theorem OverlapW_ok_true_iff (a b : PgRange) (ha : a.valid = true) (hb : b.valid = true)
    (hea : emptyValW a = false) (heb : emptyValW b = false)
    (hka : compareBounds (RewriteW a) (RewriteW a) true false ≤ 0)
    (hkb : compareBounds (RewriteW b) (RewriteW b) true false ≤ 0) :
    OverlapW a b = .ok true ↔
      (compareBounds (RewriteW a) (RewriteW b) true false ≤ 0 ∧
       compareBounds (RewriteW b) (RewriteW a) true false ≤ 0) := by
  simp only [OverlapW]
  rw [if_neg (by simp [ha]), if_neg (by simp [hb]), if_neg (by simp [hea, heb])]
  rw [ite_ok_true]
  rw [compareBounds_LU] at hka hkb
  simp only [compareBounds_LL, compareBounds_LU]
  revert hka hkb
  generalize edgeKey (RewriteW a) true = kAL
  generalize edgeKey (RewriteW a) false = kAU
  generalize edgeKey (RewriteW b) true = kBL
  generalize edgeKey (RewriteW b) false = kBU
  rcases kAL with ⟨t1, p1⟩
  rcases kAU with ⟨t2, p2⟩
  rcases kBL with ⟨t3, p3⟩
  rcases kBU with ⟨t4, p4⟩
  simp only [cmpKey_ge_zero, cmpKey_le_zero, ge_iff_le]
  intro k1 k2
  constructor
  · rintro (⟨hx, hy⟩ | ⟨hx, hy⟩) <;> constructor <;> omega
  · rintro ⟨hx, hy⟩
    by_cases hc : t3 < t1 ∨ (t1 = t3 ∧ p3 ≤ p1)
    · left
      constructor <;> omega
    · right
      constructor <;> omega

theorem cmpKey_self (k : Int × Int) : cmpKey k k = 0 := by
  rcases k with ⟨t, p⟩
  simp only [cmpKey, cmpInt]
  split_ifs <;> omega

theorem cmpKey_neg (k1 k2 : Int × Int) : cmpKey k2 k1 = -cmpKey k1 k2 := by
  rcases k1 with ⟨t1, p1⟩
  rcases k2 with ⟨t2, p2⟩
  simp only [cmpKey, cmpInt]
  split_ifs <;> omega

theorem edgeKey_true_eq (r s : PgRange) (h1 : r.lower = s.lower)
    (h2 : r.lowerType = s.lowerType) : edgeKey r true = edgeKey s true := by
  simp [edgeKey, h1, h2]

theorem edgeKey_false_eq (r s : PgRange) (h1 : r.upper = s.upper)
    (h2 : r.upperType = s.upperType) : edgeKey r false = edgeKey s false := by
  simp [edgeKey, h1, h2]

theorem cB_LL_self {A r : PgRange} (h1 : r.lower = A.lower)
    (h2 : r.lowerType = A.lowerType) : compareBounds r A true true ≤ 0 := by
  rw [compareBounds_LL, edgeKey_true_eq r A h1 h2, cmpKey_self]

theorem cB_LL_of_lt {A B r : PgRange} (h1 : r.lower = A.lower)
    (h2 : r.lowerType = A.lowerType) (h : compareBounds A B true true < 0) :
    compareBounds r B true true ≤ 0 := by
  rw [compareBounds_LL, edgeKey_true_eq r A h1 h2, ← compareBounds_LL]
  omega

theorem cB_LL_of_not_lt {A B r : PgRange} (h1 : r.lower = B.lower)
    (h2 : r.lowerType = B.lowerType) (h : ¬compareBounds A B true true < 0) :
    compareBounds r A true true ≤ 0 := by
  rw [compareBounds_LL, edgeKey_true_eq r B h1 h2, cmpKey_neg]
  rw [compareBounds_LL] at h
  omega

theorem cB_UU_self {A r : PgRange} (h1 : r.upper = A.upper)
    (h2 : r.upperType = A.upperType) : compareBounds r A false false ≥ 0 := by
  rw [compareBounds_UU, edgeKey_false_eq r A h1 h2, cmpKey_self]

theorem cB_UU_of_gt {A B r : PgRange} (h1 : r.upper = A.upper)
    (h2 : r.upperType = A.upperType) (h : compareBounds A B false false > 0) :
    compareBounds r B false false ≥ 0 := by
  rw [compareBounds_UU, edgeKey_false_eq r A h1 h2, ← compareBounds_UU]
  omega

theorem cB_UU_of_not_gt {A B r : PgRange} (h1 : r.upper = B.upper)
    (h2 : r.upperType = B.upperType) (h : ¬compareBounds A B false false > 0) :
    compareBounds r A false false ≥ 0 := by
  rw [compareBounds_UU, edgeKey_false_eq r B h1 h2, cmpKey_neg]
  rw [compareBounds_UU] at h
  omega

/-- The convex-hull record built by `union` keeps each edge equal to one of
the operands' corresponding edges, its lower edge at or before both lower
edges and its upper edge at or after both upper edges. -/
theorem union_res_spec (A B res : PgRange)
    (hres : res =
      { lower := if compareBounds A B true true < 0 then A.lower else B.lower
        lowerType := if compareBounds A B true true < 0 then A.lowerType else B.lowerType
        upper := if compareBounds A B false false > 0 then A.upper else B.upper
        upperType := if compareBounds A B false false > 0 then A.upperType else B.upperType
        valid := true }) :
    res.valid = true ∧
    ((res.lower = A.lower ∧ res.lowerType = A.lowerType) ∨
     (res.lower = B.lower ∧ res.lowerType = B.lowerType)) ∧
    compareBounds res A true true ≤ 0 ∧
    compareBounds res B true true ≤ 0 ∧
    ((res.upper = A.upper ∧ res.upperType = A.upperType) ∨
     (res.upper = B.upper ∧ res.upperType = B.upperType)) ∧
    compareBounds res A false false ≥ 0 ∧
    compareBounds res B false false ≥ 0 := by
  have hlo : res.lower = if compareBounds A B true true < 0 then A.lower else B.lower := by
    rw [hres]
  have hlt : res.lowerType =
      if compareBounds A B true true < 0 then A.lowerType else B.lowerType := by
    rw [hres]
  have hup : res.upper = if compareBounds A B false false > 0 then A.upper else B.upper := by
    rw [hres]
  have hut : res.upperType =
      if compareBounds A B false false > 0 then A.upperType else B.upperType := by
    rw [hres]
  have hv : res.valid = true := by rw [hres]
  by_cases hll : compareBounds A B true true < 0 <;>
    by_cases hgg : compareBounds A B false false > 0 <;>
    simp only [if_pos, if_neg, hll, hgg, if_true, if_false, ite_true, ite_false]
      at hlo hlt hup hut
  · exact ⟨hv, Or.inl ⟨hlo, hlt⟩, cB_LL_self hlo hlt, cB_LL_of_lt hlo hlt hll,
      Or.inl ⟨hup, hut⟩, cB_UU_self hup hut, cB_UU_of_gt hup hut hgg⟩
  · exact ⟨hv, Or.inl ⟨hlo, hlt⟩, cB_LL_self hlo hlt, cB_LL_of_lt hlo hlt hll,
      Or.inr ⟨hup, hut⟩, cB_UU_of_not_gt hup hut hgg, cB_UU_self hup hut⟩
  · exact ⟨hv, Or.inr ⟨hlo, hlt⟩, cB_LL_of_not_lt hlo hlt hll, cB_LL_self hlo hlt,
      Or.inl ⟨hup, hut⟩, cB_UU_self hup hut, cB_UU_of_gt hup hut hgg⟩
  · exact ⟨hv, Or.inr ⟨hlo, hlt⟩, cB_LL_of_not_lt hlo hlt hll, cB_LL_self hlo hlt,
      Or.inr ⟨hup, hut⟩, cB_UU_of_not_gt hup hut hgg, cB_UU_self hup hut⟩

theorem Overlap_Rewrite (a b : PgRange) :
    Overlap (Rewrite a) (Rewrite b) = Overlap a b := by
  simp only [Overlap, Rewrite_valid, emptyVal_Rewrite, Rewrite_idem]

theorem Adjacent_Rewrite (a b : PgRange) :
    Adjacent (Rewrite a) (Rewrite b) = Adjacent a b := by
  simp only [Adjacent, Rewrite_valid, emptyVal_Rewrite, Rewrite_idem]

theorem IsCanonical_makeEmptyRange : IsCanonical makeEmptyRange := by
  decide

/-- For a valid operand whose Empty markers appear on both sides or neither,
`Rewrite` produces a range in canonical form. -/
theorem Rewrite_canonical (r : PgRange) (hv : r.valid = true)
    (hi : r.lowerType = .empty ↔ r.upperType = .empty) :
    IsCanonical (Rewrite r) := by
  rcases r with ⟨lo, lt, hi', ut, v⟩
  cases lt <;> cases ut <;>
    simp_all [Rewrite, shiftLower, shiftUpper, IsCanonical, makeEmptyRange] <;>
    split_ifs <;> simp_all

theorem canonical_nonempty_types (r : PgRange) (hc : IsCanonical r)
    (hne : emptyVal r = false) :
    (r.lowerType = .inclusive ∨ r.lowerType = .unbounded) ∧
    (r.upperType = .exclusive ∨ r.upperType = .unbounded) := by
  rcases hc with ⟨hdisj, hv⟩
  rcases hdisj with ⟨hl, hu⟩ | h
  · rcases r with ⟨lo, lt, hi', ut, v⟩
    simp_all [emptyVal, Empty]
  · exact h

theorem cB_UU_le_of_unbounded (A B : PgRange) (h : B.upperType = .unbounded) :
    compareBounds A B false false ≤ 0 := by
  rw [compareBounds_UU]
  rcases A with ⟨lo, lt, hi', ut, v⟩
  cases ut <;> simp [edgeKey, cmpKey, cmpInt, h] <;> split_ifs <;> omega

/-- Any successful result of the shared `union` implementation (strict or
not) is canonical, for operands whose Empty markers are two-sided. -/
theorem unionImpl_canonical (a b : PgRange) (strict : Bool)
    (ha : a.valid = true) (hb : b.valid = true)
    (hia : a.lowerType = .empty ↔ a.upperType = .empty)
    (hib : b.lowerType = .empty ↔ b.upperType = .empty) :
    ∀ r, unionImpl a b strict = .ok r → IsCanonical r := by
  intro r h
  simp only [unionImpl] at h
  rw [if_neg (by simp [ha]), if_neg (by simp [hb])] at h
  have hca := Rewrite_canonical a ha hia
  have hcb := Rewrite_canonical b hb hib
  by_cases hfe : emptyVal (Rewrite a) = true
  · by_cases hse : emptyVal (Rewrite b) = true
    · rw [if_pos ⟨hfe, hse⟩] at h
      injection h with h
      subst h
      exact IsCanonical_makeEmptyRange
    · rw [if_neg (by simp [hse]), if_pos hfe] at h
      injection h with h
      subst h
      exact hcb
  · by_cases hse : emptyVal (Rewrite b) = true
    · rw [if_neg (by simp [hfe]), if_neg (by simp [hfe]), if_pos hse] at h
      injection h with h
      subst h
      exact hca
    · rw [if_neg (by simp [hfe]), if_neg (by simp [hfe]), if_neg (by simp [hse])] at h
      rw [Bool.not_eq_true] at hfe hse
      have hta := canonical_nonempty_types (Rewrite a) hca hfe
      have htb := canonical_nonempty_types (Rewrite b) hcb hse
      by_cases hst : overlapVal (Rewrite a) (Rewrite b) = false ∧
          adjacentVal (Rewrite a) (Rewrite b) = false ∧ strict = true
      · rw [if_pos hst] at h
        exact absurd h (by simp)
      · rw [if_neg hst] at h
        injection h with h
        subst h
        apply Rewrite_canonical _ rfl
        refine ⟨fun hx => absurd hx ?_, fun hx => absurd hx ?_⟩
        · show (if compareBounds (Rewrite a) (Rewrite b) true true < 0
              then (Rewrite a).lowerType else (Rewrite b).lowerType) ≠ BoundType.empty
          split_ifs with hc
          · rcases hta.1 with h' | h' <;> simp [h']
          · rcases htb.1 with h' | h' <;> simp [h']
        · show (if compareBounds (Rewrite a) (Rewrite b) false false > 0
              then (Rewrite a).upperType else (Rewrite b).upperType) ≠ BoundType.empty
          split_ifs with hc
          · rcases hta.2 with h' | h' <;> simp [h']
          · rcases htb.2 with h' | h' <;> simp [h']

theorem Intersect_canonical (a b : PgRange)
    (ha : a.valid = true) (hb : b.valid = true)
    (hia : a.lowerType = .empty ↔ a.upperType = .empty)
    (hib : b.lowerType = .empty ↔ b.upperType = .empty) :
    ∀ r, Intersect a b = .ok r → IsCanonical r := by
  intro r h
  simp only [Intersect] at h
  rw [if_neg (by simp [ha]), if_neg (by simp [hb])] at h
  have hca := Rewrite_canonical a ha hia
  have hcb := Rewrite_canonical b hb hib
  by_cases hc : emptyVal (Rewrite a) = true ∨ emptyVal (Rewrite b) = true ∨
      overlapVal (Rewrite a) (Rewrite b) = false
  · rw [if_pos hc] at h
    injection h with h
    subst h
    exact IsCanonical_makeEmptyRange
  · rw [if_neg hc] at h
    push_neg at hc
    obtain ⟨hc1, hc2, hc3⟩ := hc
    have hta := canonical_nonempty_types _ hca (by simpa using hc1)
    have htb := canonical_nonempty_types _ hcb (by simpa using hc2)
    injection h with h
    subst h
    apply Rewrite_canonical _ rfl
    refine ⟨fun hx => absurd hx ?_, fun hx => absurd hx ?_⟩
    · show (if compareBounds (Rewrite a) (Rewrite b) true true ≥ 0
          then (Rewrite a).lowerType else (Rewrite b).lowerType) ≠ BoundType.empty
      split_ifs with hcc
      · rcases hta.1 with h' | h' <;> simp [h']
      · rcases htb.1 with h' | h' <;> simp [h']
    · show (if compareBounds (Rewrite a) (Rewrite b) false false ≤ 0
          then (Rewrite a).upperType else (Rewrite b).upperType) ≠ BoundType.empty
      split_ifs with hcc
      · rcases hta.2 with h' | h' <;> simp [h']
      · rcases htb.2 with h' | h' <;> simp [h']

theorem Difference_canonical (a b : PgRange)
    (ha : a.valid = true) (hb : b.valid = true)
    (hia : a.lowerType = .empty ↔ a.upperType = .empty)
    (hib : b.lowerType = .empty ↔ b.upperType = .empty) :
    ∀ r, Difference a b = .ok r → IsCanonical r := by
  intro r h
  simp only [Difference] at h
  rw [if_neg (by simp [ha]), if_neg (by simp [hb])] at h
  by_cases hfe : emptyVal a = true
  · rw [if_pos hfe] at h
    injection h with h
    subst h
    exact IsCanonical_makeEmptyRange
  · rw [if_neg (by simp [hfe])] at h
    by_cases hse : emptyVal b = true
    · rw [if_pos hse] at h
      injection h with h
      subst h
      exact Rewrite_canonical a ha hia
    · rw [if_neg (by simp [hse])] at h
      rw [Bool.not_eq_true] at hfe hse
      have hca := Rewrite_canonical a ha hia
      have hcb := Rewrite_canonical b hb hib
      have hfa : emptyVal (Rewrite a) = false := by rw [emptyVal_Rewrite]; exact hfe
      have hfb : emptyVal (Rewrite b) = false := by rw [emptyVal_Rewrite]; exact hse
      have hta := canonical_nonempty_types _ hca hfa
      have htb := canonical_nonempty_types _ hcb hfb
      split_ifs at h with h1 h2 h3 h4 h4b h5 h5b
      · injection h with h
        subst h
        rw [Rewrite_idem]
        exact hca
      · injection h with h
        subst h
        exact IsCanonical_makeEmptyRange
      · exact absurd h4b (by rcases htb.1 with h' | h' <;> simp [h'])
      · injection h with h
        subst h
        exact ⟨Or.inr ⟨hta.1, Or.inl rfl⟩, rfl⟩
      · injection h with h
        subst h
        exact ⟨Or.inr ⟨Or.inl rfl, hta.2⟩, rfl⟩
      · have hbu : (Rewrite b).upperType = BoundType.unbounded := by
          rcases htb.2 with h' | h'
          · exact absurd h' h5b
          · exact h'
        have hle := cB_UU_le_of_unbounded (Rewrite a) (Rewrite b) hbu
        exfalso
        omega

/-!  Claim theorems. -/

/-- C1 (code bug evidence): the `Upper` accessor tests `UpperInf`, which in
the source reads `r.LowerType` instead of `r.UpperType`.  On the range
`(-inf, 5]` (upper bound Inclusive, not Unbounded) `Upper` fails with the
infinite-bound error, and on `[0, +inf)` (upper bound Unbounded) `Upper`
succeeds and returns the stored upper value — the opposite of the claim. -/
theorem claim_C1_upper_accessor_bug :
    Upper { lower := 0, lowerType := .unbounded, upper := 5, upperType := .inclusive,
            valid := true } = .error .upperInfinite ∧
    (({ lower := 0, lowerType := .unbounded, upper := 5, upperType := .inclusive,
        valid := true } : PgRange)).upperType ≠ .unbounded ∧
    Upper { lower := 0, lowerType := .inclusive, upper := 7, upperType := .unbounded,
            valid := true } = .ok 7 ∧
    (({ lower := 0, lowerType := .inclusive, upper := 7, upperType := .unbounded,
        valid := true } : PgRange)).upperType = .unbounded := by
  refine ⟨rfl, by decide, rfl, rfl⟩

/-- C2: for valid, non-empty ranges that neither overlap nor are adjacent,
`Union` fails with the non-contiguous-result error while `Merge` succeeds
and returns the re-canonicalized convex hull: its lower edge is the lesser
of the two lower edges (it equals one of them and is at or before both) and
its upper edge is the greater of the two upper edges. -/
theorem claim_C2_union_merge_non_contiguous (a b : PgRange)
    (ha : a.valid = true) (hb : b.valid = true)
    (hea : emptyVal a = false) (heb : emptyVal b = false)
    (hov : Overlap a b = .ok false) (hadj : Adjacent a b = .ok false) :
    Union a b = .error .nonContiguousUnion ∧
    ∃ res : PgRange,
      Merge a b = .ok (Rewrite res) ∧
      res.valid = true ∧
      ((res.lower = (Rewrite a).lower ∧ res.lowerType = (Rewrite a).lowerType) ∨
       (res.lower = (Rewrite b).lower ∧ res.lowerType = (Rewrite b).lowerType)) ∧
      compareBounds res (Rewrite a) true true ≤ 0 ∧
      compareBounds res (Rewrite b) true true ≤ 0 ∧
      ((res.upper = (Rewrite a).upper ∧ res.upperType = (Rewrite a).upperType) ∨
       (res.upper = (Rewrite b).upper ∧ res.upperType = (Rewrite b).upperType)) ∧
      compareBounds res (Rewrite a) false false ≥ 0 ∧
      compareBounds res (Rewrite b) false false ≥ 0 := by
  have hov' : overlapVal (Rewrite a) (Rewrite b) = false := by
    simp [overlapVal, Overlap_Rewrite, hov]
  have hadj' : adjacentVal (Rewrite a) (Rewrite b) = false := by
    simp [adjacentVal, Adjacent_Rewrite, hadj]
  have hea' : emptyVal (Rewrite a) = false := by rw [emptyVal_Rewrite]; exact hea
  have heb' : emptyVal (Rewrite b) = false := by rw [emptyVal_Rewrite]; exact heb
  constructor
  · simp only [Union, unionImpl]
    rw [if_neg (by simp [ha]), if_neg (by simp [hb]),
      if_neg (by simp [hea']), if_neg (by simp [hea']), if_neg (by simp [heb'])]
    rw [if_pos ⟨hov', hadj', trivial⟩]
  · simp only [Merge, unionImpl]
    rw [if_neg (by simp [ha]), if_neg (by simp [hb]),
      if_neg (by simp [hea']), if_neg (by simp [hea']), if_neg (by simp [heb']),
      if_neg (by simp)]
    obtain ⟨h1, h2, h3, h4, h5, h6, h7⟩ :=
      union_res_spec (Rewrite a) (Rewrite b) _ rfl
    exact ⟨_, rfl, h1, h2, h3, h4, h5, h6, h7⟩

/-- Witness for C2 at the concrete disjoint non-adjacent ranges `[0,1)` and
`[5,6)`. -/
theorem claim_C2_union_merge_non_contiguous_witness :
    Union { lower := 0, lowerType := .inclusive, upper := 1, upperType := .exclusive,
            valid := true }
          { lower := 5, lowerType := .inclusive, upper := 6, upperType := .exclusive,
            valid := true } = .error .nonContiguousUnion ∧
    ∃ res : PgRange,
      Merge { lower := 0, lowerType := .inclusive, upper := 1, upperType := .exclusive,
              valid := true }
            { lower := 5, lowerType := .inclusive, upper := 6, upperType := .exclusive,
              valid := true } = .ok (Rewrite res) ∧
      res.valid = true ∧
      ((res.lower = (Rewrite { lower := 0, lowerType := .inclusive, upper := 1,
                               upperType := .exclusive, valid := true }).lower ∧
        res.lowerType = (Rewrite { lower := 0, lowerType := .inclusive, upper := 1,
                                   upperType := .exclusive, valid := true }).lowerType) ∨
       (res.lower = (Rewrite { lower := 5, lowerType := .inclusive, upper := 6,
                               upperType := .exclusive, valid := true }).lower ∧
        res.lowerType = (Rewrite { lower := 5, lowerType := .inclusive, upper := 6,
                                   upperType := .exclusive, valid := true }).lowerType)) ∧
      compareBounds res (Rewrite { lower := 0, lowerType := .inclusive, upper := 1,
                                   upperType := .exclusive, valid := true }) true true ≤ 0 ∧
      compareBounds res (Rewrite { lower := 5, lowerType := .inclusive, upper := 6,
                                   upperType := .exclusive, valid := true }) true true ≤ 0 ∧
      ((res.upper = (Rewrite { lower := 0, lowerType := .inclusive, upper := 1,
                               upperType := .exclusive, valid := true }).upper ∧
        res.upperType = (Rewrite { lower := 0, lowerType := .inclusive, upper := 1,
                                   upperType := .exclusive, valid := true }).upperType) ∨
       (res.upper = (Rewrite { lower := 5, lowerType := .inclusive, upper := 6,
                               upperType := .exclusive, valid := true }).upper ∧
        res.upperType = (Rewrite { lower := 5, lowerType := .inclusive, upper := 6,
                                   upperType := .exclusive, valid := true }).upperType)) ∧
      compareBounds res (Rewrite { lower := 0, lowerType := .inclusive, upper := 1,
                                   upperType := .exclusive, valid := true }) false false ≥ 0 ∧
      compareBounds res (Rewrite { lower := 5, lowerType := .inclusive, upper := 6,
                                   upperType := .exclusive, valid := true }) false false ≥ 0 :=
  claim_C2_union_merge_non_contiguous _ _ rfl rfl rfl rfl rfl rfl

/-- C3: for integer ranges, `Difference [0,10) [3,7)` fails with the
non-contiguous-result error, and `Difference [0,10) [8,20)` returns `[0,8)`. -/
theorem claim_C3_difference_scenarios :
    Difference { lower := 0, lowerType := .inclusive, upper := 10, upperType := .exclusive,
                 valid := true }
               { lower := 3, lowerType := .inclusive, upper := 7, upperType := .exclusive,
                 valid := true } = .error .nonContiguousDifference ∧
    Difference { lower := 0, lowerType := .inclusive, upper := 10, upperType := .exclusive,
                 valid := true }
               { lower := 8, lowerType := .inclusive, upper := 20, upperType := .exclusive,
                 valid := true } =
      .ok { lower := 0, lowerType := .inclusive, upper := 8, upperType := .exclusive,
            valid := true } := by
  constructor <;> rfl

/-- C4: for every pair of valid ranges, the final "unexpected case" branch of
`Difference` is unreachable: the five preceding classifications cover every
outcome of the four edge comparisons, so `Difference` never returns the
internal-invariant-violation error. -/
theorem claim_C4_difference_no_internal_error (a b : PgRange)
    (ha : a.valid = true) (hb : b.valid = true) :
    Difference a b ≠ Except.error RangeError.unexpectedDifference := by
  intro h
  simp only [Difference] at h
  rw [if_neg (by simp [ha]), if_neg (by simp [hb])] at h
  by_cases hea : emptyVal a = true
  · rw [if_pos hea] at h
    exact absurd h (by simp)
  · rw [Bool.not_eq_true] at hea
    rw [if_neg (by simp [hea])] at h
    by_cases heb : emptyVal b = true
    · rw [if_pos heb] at h
      exact absurd h (by simp)
    · rw [Bool.not_eq_true] at heb
      rw [if_neg (by simp [heb])] at h
      revert h
      generalize compareBounds (Rewrite a) (Rewrite b) true true = x
      generalize compareBounds (Rewrite a) (Rewrite b) true false = y
      generalize compareBounds (Rewrite a) (Rewrite b) false true = z
      generalize compareBounds (Rewrite a) (Rewrite b) false false = w
      intro h
      split_ifs at h <;> simp_all <;> omega

/-- Witness for C4 at the concrete valid ranges `[0,10)` and `[3,7)`. -/
theorem claim_C4_difference_no_internal_error_witness :
    Difference { lower := 0, lowerType := .inclusive, upper := 10, upperType := .exclusive,
                 valid := true }
               { lower := 3, lowerType := .inclusive, upper := 7, upperType := .exclusive,
                 valid := true } ≠ Except.error RangeError.unexpectedDifference :=
  claim_C4_difference_no_internal_error _ _ rfl rfl

/-- C5: for any two valid ranges, exactly one of `LessThan`, `Equal`,
`GreaterThan` returns true; in particular `Equal` returns true if and only
if `compareRanges` returns 0 (and `LessThan`/`GreaterThan` iff it is
negative/positive). -/
theorem claim_C5_total_order_trichotomy (a b : PgRange)
    (ha : a.valid = true) (hb : b.valid = true) :
    (Equal a b = .ok true ↔ compareRanges a b = 0) ∧
    (LessThan a b = .ok true ↔ compareRanges a b < 0) ∧
    (GreaterThan a b = .ok true ↔ 0 < compareRanges a b) ∧
    ((LessThan a b = .ok true ∧ ¬Equal a b = .ok true ∧ ¬GreaterThan a b = .ok true) ∨
     (¬LessThan a b = .ok true ∧ Equal a b = .ok true ∧ ¬GreaterThan a b = .ok true) ∨
     (¬LessThan a b = .ok true ∧ ¬Equal a b = .ok true ∧ GreaterThan a b = .ok true)) := by
  have hE := Equal_ok_true_iff a b ha hb
  have hL := LessThan_ok_true_iff a b ha hb
  have hG := GreaterThan_ok_true_iff a b ha hb
  refine ⟨hE, hL, hG, ?_⟩
  rcases lt_trichotomy (compareRanges a b) 0 with h | h | h
  · exact Or.inl ⟨hL.mpr h, fun hc => by have := hE.mp hc; omega,
      fun hc => by have := hG.mp hc; omega⟩
  · exact Or.inr (Or.inl ⟨fun hc => by have := hL.mp hc; omega, hE.mpr h,
      fun hc => by have := hG.mp hc; omega⟩)
  · exact Or.inr (Or.inr ⟨fun hc => by have := hL.mp hc; omega,
      fun hc => by have := hE.mp hc; omega, hG.mpr h⟩)

/-- Witness for C5 at the concrete valid ranges `[0,10)` and `[3,7)`. -/
theorem claim_C5_total_order_trichotomy_witness :
    (LessThan { lower := 0, lowerType := .inclusive, upper := 10, upperType := .exclusive,
                valid := true }
              { lower := 3, lowerType := .inclusive, upper := 7, upperType := .exclusive,
                valid := true } = .ok true ∧
     ¬Equal { lower := 0, lowerType := .inclusive, upper := 10, upperType := .exclusive,
              valid := true }
            { lower := 3, lowerType := .inclusive, upper := 7, upperType := .exclusive,
              valid := true } = .ok true ∧
     ¬GreaterThan { lower := 0, lowerType := .inclusive, upper := 10, upperType := .exclusive,
                    valid := true }
                  { lower := 3, lowerType := .inclusive, upper := 7, upperType := .exclusive,
                    valid := true } = .ok true) ∨
    (¬LessThan { lower := 0, lowerType := .inclusive, upper := 10, upperType := .exclusive,
                 valid := true }
               { lower := 3, lowerType := .inclusive, upper := 7, upperType := .exclusive,
                 valid := true } = .ok true ∧
     Equal { lower := 0, lowerType := .inclusive, upper := 10, upperType := .exclusive,
             valid := true }
           { lower := 3, lowerType := .inclusive, upper := 7, upperType := .exclusive,
             valid := true } = .ok true ∧
     ¬GreaterThan { lower := 0, lowerType := .inclusive, upper := 10, upperType := .exclusive,
                    valid := true }
                  { lower := 3, lowerType := .inclusive, upper := 7, upperType := .exclusive,
                    valid := true } = .ok true) ∨
    (¬LessThan { lower := 0, lowerType := .inclusive, upper := 10, upperType := .exclusive,
                 valid := true }
               { lower := 3, lowerType := .inclusive, upper := 7, upperType := .exclusive,
                 valid := true } = .ok true ∧
     ¬Equal { lower := 0, lowerType := .inclusive, upper := 10, upperType := .exclusive,
              valid := true }
            { lower := 3, lowerType := .inclusive, upper := 7, upperType := .exclusive,
              valid := true } = .ok true ∧
     GreaterThan { lower := 0, lowerType := .inclusive, upper := 10, upperType := .exclusive,
                   valid := true }
                 { lower := 3, lowerType := .inclusive, upper := 7, upperType := .exclusive,
                   valid := true } = .ok true) :=
  (claim_C5_total_order_trichotomy _ _ rfl rfl).2.2.2

/-- C6: `Rewrite` is idempotent: for every range `r`,
`Rewrite (Rewrite r) = Rewrite r`. -/
theorem claim_C6_rewrite_idempotent (r : PgRange) :
    Rewrite (Rewrite r) = Rewrite r :=
  Rewrite_idem r

/-- C7 counterexample: with Go's wrapping `int` arithmetic the claimed iff
fails.  Take `a = [2^62, -2^62-1)` (stored bounds inverted) and
`b = [0, 2^62+1)`, both valid.  `diff` wraps `(-2^62-1) - 2^62` to
`+maxInt64 > 0`, so neither operand is empty; `Overlap` returns true via
its first disjunct, yet b's lower edge is NOT at or before a's upper edge
(`cmp(0, -2^62-1) = 1`), so the claimed right-hand side is false. -/
theorem claim_C7_overlap_counterexample :
    EmptyW { lower := 4611686018427387904, lowerType := .inclusive,
             upper := -4611686018427387905, upperType := .exclusive,
             valid := true } = .ok false ∧
    EmptyW { lower := 0, lowerType := .inclusive, upper := 4611686018427387905,
             upperType := .exclusive, valid := true } = .ok false ∧
    OverlapW { lower := 4611686018427387904, lowerType := .inclusive,
               upper := -4611686018427387905, upperType := .exclusive,
               valid := true }
             { lower := 0, lowerType := .inclusive, upper := 4611686018427387905,
               upperType := .exclusive, valid := true } = .ok true ∧
    ¬(compareBounds
        (RewriteW { lower := 0, lowerType := .inclusive, upper := 4611686018427387905,
                    upperType := .exclusive, valid := true })
        (RewriteW { lower := 4611686018427387904, lowerType := .inclusive,
                    upper := -4611686018427387905, upperType := .exclusive,
                    valid := true }) true false ≤ 0) := by
  refine ⟨rfl, rfl, rfl, by decide⟩

/-- C7 (amended): for valid ranges, `Overlap` returns false when either
range is empty; and when neither is empty and each canonicalized operand
has its lower edge at or before its own upper edge under `compareBounds`,
`Overlap` returns true iff each range's lower edge is at or before the
other's upper edge; in particular the integer ranges `(-3,5]` and
`[2,+inf)` overlap.  Stated on the wrapping model of the integer
comparator. -/
theorem claim_C7_overlap_amended (a b : PgRange)
    (ha : a.valid = true) (hb : b.valid = true) :
    ((emptyValW a = true ∨ emptyValW b = true) → OverlapW a b = .ok false) ∧
    (emptyValW a = false → emptyValW b = false →
      compareBounds (RewriteW a) (RewriteW a) true false ≤ 0 →
      compareBounds (RewriteW b) (RewriteW b) true false ≤ 0 →
      (OverlapW a b = .ok true ↔
        (compareBounds (RewriteW a) (RewriteW b) true false ≤ 0 ∧
         compareBounds (RewriteW b) (RewriteW a) true false ≤ 0))) ∧
    OverlapW { lower := -3, lowerType := .exclusive, upper := 5, upperType := .inclusive,
               valid := true }
             { lower := 2, lowerType := .inclusive, upper := 0, upperType := .unbounded,
               valid := true } = .ok true := by
  refine ⟨?_, ?_, rfl⟩
  · intro h
    simp only [OverlapW]
    rw [if_neg (by simp [ha]), if_neg (by simp [hb]), if_pos h]
  · intro hea heb hka hkb
    exact OverlapW_ok_true_iff a b ha hb hea heb hka hkb

/-- Witness for the amended C7 at the concrete valid non-empty ranges
`(-3,5]` and `[2,+inf)`. -/
theorem claim_C7_overlap_amended_witness :
    OverlapW { lower := -3, lowerType := .exclusive, upper := 5, upperType := .inclusive,
               valid := true }
             { lower := 2, lowerType := .inclusive, upper := 0, upperType := .unbounded,
               valid := true } = .ok true ↔
      (compareBounds
         (RewriteW { lower := -3, lowerType := .exclusive, upper := 5,
                     upperType := .inclusive, valid := true })
         (RewriteW { lower := 2, lowerType := .inclusive, upper := 0,
                     upperType := .unbounded, valid := true }) true false ≤ 0 ∧
       compareBounds
         (RewriteW { lower := 2, lowerType := .inclusive, upper := 0,
                     upperType := .unbounded, valid := true })
         (RewriteW { lower := -3, lowerType := .exclusive, upper := 5,
                     upperType := .inclusive, valid := true }) true false ≤ 0) :=
  (claim_C7_overlap_amended _ _ rfl rfl).2.1 rfl rfl (by decide) (by decide)

/-- C8: the `WithUpperInf` option assigns the LOWER bound fields (value to
the comparator's zero, type to Unbounded) and leaves the upper bound value
and type unchanged — identical to `WithLowerInf`; so a range built by
`NewIntegerRange` with `WithUpperInf` has an unbounded lower bound and its
original exclusive upper bound. -/
theorem claim_C8_with_upper_inf (lower upper : Int) (r : PgRange) :
    WithUpperInf r = WithLowerInf r ∧
    (WithUpperInf r).lower = 0 ∧
    (WithUpperInf r).lowerType = .unbounded ∧
    (WithUpperInf r).upper = r.upper ∧
    (WithUpperInf r).upperType = r.upperType ∧
    NewIntegerRange lower upper [WithUpperInf] =
      { lower := 0, lowerType := .unbounded, upper := upper, upperType := .exclusive,
        valid := true } ∧
    NewIntegerRange lower upper [WithUpperInf] =
      NewIntegerRange lower upper [WithLowerInf] := by
  refine ⟨rfl, rfl, rfl, rfl, rfl, rfl, rfl⟩

/-- C9 counterexample: the claim as stated fails.  On the valid range with
`lowerType = Empty` and `upperType = Unbounded`, `Rewrite` returns the input
unchanged, which is not in canonical form; and `Rewrite` applied to an
invalid range returns a range with `valid = false`. -/
theorem claim_C9_counterexample :
    ¬IsCanonical (Rewrite { lower := 0, lowerType := .empty, upper := 0,
                            upperType := .unbounded, valid := true }) ∧
    (Rewrite { lower := 0, lowerType := .inclusive, upper := 1,
               upperType := .exclusive, valid := false }).valid = false := by
  decide

/-- C9 (amended): for operands that are valid and whose Empty bound markers
appear on both sides or neither, every range returned without error by
`Rewrite`, `Union`, `Merge`, `Intersect` or `Difference` is in canonical
form (both types Empty, or lower type Inclusive/Unbounded and upper type
Exclusive/Unbounded) and has `valid = true` — including the two
partial-overlap results of `Difference`, which are built directly. -/
theorem claim_C9_canonical_results (a b : PgRange)
    (ha : a.valid = true) (hb : b.valid = true)
    (hia : a.lowerType = .empty ↔ a.upperType = .empty)
    (hib : b.lowerType = .empty ↔ b.upperType = .empty) :
    IsCanonical (Rewrite a) ∧
    (∀ r, Union a b = .ok r → IsCanonical r) ∧
    (∀ r, Merge a b = .ok r → IsCanonical r) ∧
    (∀ r, Intersect a b = .ok r → IsCanonical r) ∧
    (∀ r, Difference a b = .ok r → IsCanonical r) :=
  ⟨Rewrite_canonical a ha hia,
   unionImpl_canonical a b true ha hb hia hib,
   unionImpl_canonical a b false ha hb hia hib,
   Intersect_canonical a b ha hb hia hib,
   Difference_canonical a b ha hb hia hib⟩

/-- Witness for the amended C9 at the concrete valid ranges `[0,10)` and
`[3,7)`: `Rewrite`'s output is canonical, and so is the concrete range that
`Union` returns there. -/
theorem claim_C9_canonical_results_witness :
    IsCanonical (Rewrite { lower := 0, lowerType := .inclusive, upper := 10,
                           upperType := .exclusive, valid := true }) ∧
    IsCanonical { lower := 0, lowerType := .inclusive, upper := 10,
                  upperType := .exclusive, valid := true } :=
  ⟨(claim_C9_canonical_results
      { lower := 0, lowerType := .inclusive, upper := 10,
        upperType := .exclusive, valid := true }
      { lower := 3, lowerType := .inclusive, upper := 7,
        upperType := .exclusive, valid := true }
      rfl rfl (by decide) (by decide)).1,
   (claim_C9_canonical_results
      { lower := 0, lowerType := .inclusive, upper := 10,
        upperType := .exclusive, valid := true }
      { lower := 3, lowerType := .inclusive, upper := 7,
        upperType := .exclusive, valid := true }
      rfl rfl (by decide) (by decide)).2.1
      { lower := 0, lowerType := .inclusive, upper := 10,
        upperType := .exclusive, valid := true } rfl⟩

/-- C10: `Size` on the canonical empty range (both bound types Empty,
valid) does not fail and returns the zero measure `diff(zero, zero) = 0`. -/
theorem claim_C10_size_empty : Size makeEmptyRange = .ok 0 := by
  rfl

end PgxRange
